import Mathlib

/-!
# Verification of the Pysher client against its specification

Shallow embedding of the Pysher pub/sub client (connection state tracking,
error-code reconnect policy, wire envelope codec, channel auth signing,
channel registry and callback dispatch), with theorems settling the spec
claims.

The Python stdlib `json` module is an external collaborator of the code under
verification.  We model JSON values with the inductive `Json` below, and model
`json.dumps` / `json.loads` by an executable serializer `dumpJ` and parser
`jloads` which are proved to round-trip (`jloads_dumpJ`).  The concrete
character-level format of the model codec is a simple unambiguous tagged
format rather than JSON surface syntax; all the repository-level definitions
are stated against the codec's (proved) interface, which is the contract the
Python code relies on.
-/

namespace Pysher

/-! ## JSON value model -/

mutual
/-- A JSON value as produced by `json.loads`: string, number (modelled as an
integer), boolean, null, array, or object (an ordered key/value list). -/
inductive Json where
  | str : String → Json
  | num : Int → Json
  | jbool : Bool → Json
  | null : Json
  | arr : JsonList → Json
  | obj : JsonObj → Json

/-- A list of JSON values (array elements). -/
inductive JsonList where
  | nil : JsonList
  | cons : Json → JsonList → JsonList

/-- An ordered association list of string keys to JSON values (object items,
in insertion order, as Python dicts preserve it). -/
inductive JsonObj where
  | nil : JsonObj
  | cons : String → Json → JsonObj → JsonObj
end

/-- Number of elements of a `JsonList`. -/
def lenL : JsonList → Nat
  | .nil => 0
  | .cons _ rest => lenL rest + 1

/-- Number of entries of a `JsonObj`. -/
def lenO : JsonObj → Nat
  | .nil => 0
  | .cons _ _ rest => lenO rest + 1

/-! ## Decimal digits -/

/-- The character for a decimal digit value. -/
def digitChar (n : Nat) : Char := Char.ofNat (48 + n)

/-- Is this character a decimal digit? -/
def isDigitCh (c : Char) : Bool := 48 ≤ c.toNat && c.toNat ≤ 57

/-- Numeric value of a digit character. -/
def digitVal (c : Char) : Nat := c.toNat - 48

/-- Decimal digits, least significant first, with explicit structural fuel
(`fuel ≥ n` suffices, and `natToRevChars` supplies it). -/
def natToRevCharsAux : Nat → Nat → List Char
  | _, 0 => []
  | 0, _+1 => []
  | fuel+1, n+1 => digitChar ((n+1) % 10) :: natToRevCharsAux fuel ((n+1) / 10)

/-- Decimal digits of a positive number, least significant first. -/
def natToRevChars (n : Nat) : List Char := natToRevCharsAux n n

/-- Decimal representation of a natural number, most significant first. -/
def natChars (n : Nat) : List Char :=
  if n = 0 then ['0'] else (natToRevChars n).reverse

/-- Fold digit characters into the number they denote (big endian),
starting from accumulator `acc`. -/
def digitsVal (acc : Nat) (ds : List Char) : Nat :=
  ds.foldl (fun a c => a * 10 + digitVal c) acc

/-- Consume a maximal run of digit characters, folding them onto `acc`. -/
def parseNatAux : List Char → Nat → Nat × List Char
  | [], acc => (acc, [])
  | c :: cs, acc =>
    if isDigitCh c then parseNatAux cs (acc * 10 + digitVal c) else (acc, c :: cs)

/-- Parse a decimal number followed by the character `stop`. -/
def parseNatThen (stop : Char) (cs : List Char) : Option (Nat × List Char) :=
  match parseNatAux cs 0 with
  | (n, c :: rest) => if c = stop then some (n, rest) else none
  | (_, []) => none

/-- Decimal representation of an integer (`-` sign for negatives). -/
def intChars (n : Int) : List Char :=
  if n < 0 then '-' :: natChars n.natAbs else natChars n.natAbs

/-- Parse an optionally-signed decimal integer followed by `stop`. -/
def parseIntThen (stop : Char) (cs : List Char) : Option (Int × List Char) :=
  match cs with
  | [] => none
  | c :: rest =>
    if c = '-' then (parseNatThen stop rest).map (fun p => (-(p.1 : Int), p.2))
    else (parseNatThen stop (c :: rest)).map (fun p => ((p.1 : Int), p.2))

/-! ## Digit round-trip lemmas -/

theorem isDigitCh_digitChar {d : Nat} (h : d < 10) : isDigitCh (digitChar d) = true := by
  interval_cases d <;> decide

theorem digitVal_digitChar {d : Nat} (h : d < 10) : digitVal (digitChar d) = d := by
  interval_cases d <;> decide

theorem natToRevCharsAux_digits : ∀ fuel n : Nat, n ≤ fuel →
    ∀ c ∈ natToRevCharsAux fuel n, isDigitCh c = true := by
  intro fuel
  induction fuel with
  | zero =>
    intro n h c hc
    interval_cases n
    simp [natToRevCharsAux] at hc
  | succ f ih =>
    intro n h c hc
    match n with
    | 0 => simp [natToRevCharsAux] at hc
    | m+1 =>
      rw [natToRevCharsAux] at hc
      rcases List.mem_cons.1 hc with h1 | h1
      · subst h1; exact isDigitCh_digitChar (Nat.mod_lt _ (by norm_num))
      · refine ih ((m+1) / 10) ?_ c h1
        have := Nat.div_lt_self (Nat.succ_pos m) (show 1 < 10 by norm_num)
        omega

theorem natToRevChars_digits (n : Nat) : ∀ c ∈ natToRevChars n, isDigitCh c = true :=
  natToRevCharsAux_digits n n (le_refl n)

theorem natChars_digits (n : Nat) : ∀ c ∈ natChars n, isDigitCh c = true := by
  intro c hc
  unfold natChars at hc
  split at hc
  · simp at hc; subst hc; decide
  · exact natToRevChars_digits n c (List.mem_reverse.1 hc)

theorem natChars_ne_nil (n : Nat) : natChars n ≠ [] := by
  unfold natChars
  split
  · simp
  · rename_i h
    match hm : n with
    | m+1 =>
      show ((natToRevCharsAux (m+1) (m+1)).reverse ≠ [])
      rw [natToRevCharsAux]
      simp

/-- Folding the reversed digit list back up recovers the number. -/
theorem foldr_natToRevCharsAux : ∀ fuel n : Nat, n ≤ fuel →
    (natToRevCharsAux fuel n).foldr (fun c a => a * 10 + digitVal c) 0 = n := by
  intro fuel
  induction fuel with
  | zero =>
    intro n h
    interval_cases n
    simp [natToRevCharsAux]
  | succ f ih =>
    intro n h
    match n with
    | 0 => simp [natToRevCharsAux]
    | m+1 =>
      rw [natToRevCharsAux]
      simp only [List.foldr_cons]
      rw [ih ((m+1) / 10) ?_]
      · rw [digitVal_digitChar (Nat.mod_lt _ (by norm_num))]
        omega
      · have := Nat.div_lt_self (Nat.succ_pos m) (show 1 < 10 by norm_num)
        omega

theorem foldr_natToRevChars (n : Nat) :
    (natToRevChars n).foldr (fun c a => a * 10 + digitVal c) 0 = n :=
  foldr_natToRevCharsAux n n (le_refl n)

theorem digitsVal_natChars (n : Nat) : digitsVal 0 (natChars n) = n := by
  unfold natChars digitsVal
  split
  · subst n; decide
  · rw [List.foldl_reverse]
    exact foldr_natToRevChars n

/-- Consuming digits: `parseNatAux` walks past a digit run onto the rest. -/
theorem parseNatAux_digits (ds : List Char) :
    ∀ (rest : List Char) (acc : Nat), (∀ c ∈ ds, isDigitCh c = true) →
      parseNatAux (ds ++ rest) acc = parseNatAux rest (digitsVal acc ds) := by
  induction ds with
  | nil => intro rest acc _; simp [digitsVal]
  | cons c cs ih =>
    intro rest acc hd
    have hc : isDigitCh c = true := hd c (List.mem_cons_self c cs)
    rw [List.cons_append, parseNatAux, if_pos hc]
    rw [ih rest (acc * 10 + digitVal c) (fun x hx => hd x (List.mem_cons_of_mem c hx))]
    rfl

theorem parseNatAux_stop (c : Char) (cs : List Char) (acc : Nat)
    (h : isDigitCh c = false) : parseNatAux (c :: cs) acc = (acc, c :: cs) := by
  rw [parseNatAux, if_neg (by simp [h])]

/-- `parseNatThen` inverts `natChars` when followed by a non-digit stop char. -/
theorem parseNatThen_natChars (stop : Char) (n : Nat) (rest : List Char)
    (hstop : isDigitCh stop = false) :
    parseNatThen stop (natChars n ++ stop :: rest) = some (n, rest) := by
  unfold parseNatThen
  rw [parseNatAux_digits (natChars n) (stop :: rest) 0 (natChars_digits n)]
  rw [parseNatAux_stop stop rest _ hstop]
  rw [digitsVal_natChars]
  simp

theorem natChars_head_digit (n : Nat) :
    ∃ c cs, natChars n = c :: cs ∧ isDigitCh c = true := by
  match h : natChars n with
  | [] => exact absurd h (natChars_ne_nil n)
  | c :: cs =>
    exact ⟨c, cs, rfl, natChars_digits n c (h ▸ List.mem_cons_self c cs)⟩

/-- `parseIntThen` inverts `intChars` when followed by a non-digit stop char
other than `-`. -/
theorem parseIntThen_intChars (stop : Char) (n : Int) (rest : List Char)
    (hstop : isDigitCh stop = false) :
    parseIntThen stop (intChars n ++ stop :: rest) = some (n, rest) := by
  unfold intChars
  split
  · rename_i hneg
    rw [List.cons_append, parseIntThen, if_pos rfl]
    rw [parseNatThen_natChars stop n.natAbs rest hstop]
    show some ((-(n.natAbs : Int)), rest) = some (n, rest)
    have h1 : -(n.natAbs : Int) = n := by omega
    rw [h1]
  · rename_i hpos
    obtain ⟨c, cs, hc, hcd⟩ := natChars_head_digit n.natAbs
    rw [hc, List.cons_append, parseIntThen]
    rw [if_neg (by intro h; subst h; exact absurd hcd (by decide))]
    rw [← List.cons_append, ← hc]
    rw [parseNatThen_natChars stop n.natAbs rest hstop]
    show some (((n.natAbs : Nat) : Int), rest) = some (n, rest)
    have h1 : ((n.natAbs : Nat) : Int) = n := by omega
    rw [h1]

/-! ## The model codec: serializer -/

mutual
/-- Model of `json.dumps`, at character-list level: serialize a JSON value
into an unambiguous tagged text (tag byte, decimal length/value, payload). -/
def dumpJ : Json → List Char
  | .str s => 's' :: (natChars s.data.length ++ ':' :: s.data)
  | .num n => 'n' :: (intChars n ++ [';'])
  | .jbool true => ['t']
  | .jbool false => ['f']
  | .null => ['z']
  | .arr l => 'a' :: (natChars (lenL l) ++ ':' :: dumpL l)
  | .obj o => 'o' :: (natChars (lenO o) ++ ':' :: dumpO o)

/-- Serialize array elements, concatenated. -/
def dumpL : JsonList → List Char
  | .nil => []
  | .cons j rest => dumpJ j ++ dumpL rest

/-- Serialize object entries (length-prefixed key, then value), concatenated. -/
def dumpO : JsonObj → List Char
  | .nil => []
  | .cons k v rest => ('s' :: (natChars k.data.length ++ ':' :: k.data)) ++ (dumpJ v ++ dumpO rest)
end

/-! ## The model codec: parser -/

/-- Parse a length-prefixed string payload: `<len> ':' <len chars>`. -/
def parseStrRaw (cs : List Char) : Option (String × List Char) :=
  match parseNatThen ':' cs with
  | some p => some (String.mk (p.2.take p.1), p.2.drop p.1)
  | none => none

mutual
/-- Model of `json.loads`' recursive descent, with explicit fuel (decremented
on every nested call; `jloads` supplies enough fuel for any serialized value). -/
def parseJ : Nat → List Char → Option (Json × List Char)
  | fuel, cs =>
    match fuel with
    | 0 => none
    | fuel+1 =>
      match cs with
      | [] => none
      | c :: cs =>
        if c = 'z' then some (.null, cs)
        else if c = 't' then some (.jbool true, cs)
        else if c = 'f' then some (.jbool false, cs)
        else if c = 'n' then (parseIntThen ';' cs).map (fun p => (Json.num p.1, p.2))
        else if c = 's' then (parseStrRaw cs).map (fun p => (Json.str p.1, p.2))
        else if c = 'a' then
          (parseNatThen ':' cs).bind (fun p =>
            (parseL fuel p.1 p.2).map (fun q => (Json.arr q.1, q.2)))
        else if c = 'o' then
          (parseNatThen ':' cs).bind (fun p =>
            (parseO fuel p.1 p.2).map (fun q => (Json.obj q.1, q.2)))
        else none

/-- Parse `k` array elements. -/
def parseL : Nat → Nat → List Char → Option (JsonList × List Char)
  | fuel, k, cs =>
    match k with
    | 0 => some (.nil, cs)
    | k+1 =>
      match fuel with
      | 0 => none
      | fuel+1 =>
        (parseJ fuel cs).bind (fun p =>
          (parseL fuel k p.2).map (fun q => (JsonList.cons p.1 q.1, q.2)))

/-- Parse `k` object entries. -/
def parseO : Nat → Nat → List Char → Option (JsonObj × List Char)
  | fuel, k, cs =>
    match k with
    | 0 => some (.nil, cs)
    | k+1 =>
      match fuel with
      | 0 => none
      | fuel+1 =>
        match cs with
        | 's' :: cs1 =>
          (parseStrRaw cs1).bind (fun pk =>
            (parseJ fuel pk.2).bind (fun pv =>
              (parseO fuel k pv.2).map (fun q => (JsonObj.cons pk.1 pv.1 q.1, q.2))))
        | _ => none
end

/-! ## Sizes and fuel bounds -/

mutual
/-- Fuel needed to parse back a serialized value. -/
def sizeJ : Json → Nat
  | .str _ => 1
  | .num _ => 1
  | .jbool _ => 1
  | .null => 1
  | .arr l => sizeL l + 1
  | .obj o => sizeO o + 1

/-- Fuel needed for array elements. -/
def sizeL : JsonList → Nat
  | .nil => 0
  | .cons j rest => sizeJ j + sizeL rest + 1

/-- Fuel needed for object entries. -/
def sizeO : JsonObj → Nat
  | .nil => 0
  | .cons _ v rest => sizeJ v + sizeO rest + 1
end

theorem sizeJ_pos (j : Json) : 1 ≤ sizeJ j := by
  cases j <;> simp [sizeJ]

theorem natChars_len_pos (n : Nat) : 1 ≤ (natChars n).length := by
  cases hn : natChars n with
  | nil => exact absurd hn (natChars_ne_nil n)
  | cons a b => simp

mutual
theorem sizeJ_le_dumpJ : ∀ j : Json, sizeJ j + 1 ≤ 3 * (dumpJ j).length
  | .str s => by
    have h := natChars_len_pos s.data.length
    simp only [sizeJ, dumpJ, List.length_cons, List.length_append]
    omega
  | .num n => by
    have h := natChars_len_pos n.natAbs
    have h2 : 1 ≤ (intChars n).length := by
      unfold intChars
      split
      · simp
      · exact h
    simp only [sizeJ, dumpJ, List.length_cons, List.length_append]
    omega
  | .jbool true => by simp [sizeJ, dumpJ]
  | .jbool false => by simp [sizeJ, dumpJ]
  | .null => by simp [sizeJ, dumpJ]
  | .arr l => by
    have h := sizeL_le_dumpL l
    have h2 := natChars_len_pos (lenL l)
    simp only [sizeJ, dumpJ, List.length_cons, List.length_append]
    omega
  | .obj o => by
    have h := sizeO_le_dumpO o
    have h2 := natChars_len_pos (lenO o)
    simp only [sizeJ, dumpJ, List.length_cons, List.length_append]
    omega

theorem sizeL_le_dumpL : ∀ l : JsonList, sizeL l ≤ 3 * (dumpL l).length
  | .nil => by simp [sizeL, dumpL]
  | .cons j rest => by
    have h1 := sizeJ_le_dumpJ j
    have h2 := sizeL_le_dumpL rest
    simp only [sizeL, dumpL, List.length_append]
    omega

theorem sizeO_le_dumpO : ∀ o : JsonObj, sizeO o ≤ 3 * (dumpO o).length
  | .nil => by simp [sizeO, dumpO]
  | .cons k v rest => by
    have h1 := sizeJ_le_dumpJ v
    have h2 := sizeO_le_dumpO rest
    have h3 := natChars_len_pos k.data.length
    simp only [sizeO, dumpO, List.length_cons, List.length_append]
    omega
end

/-! ## Round-trip -/

theorem take_len_append {α : Type} (l r : List α) : (l ++ r).take l.length = l := by
  induction l with
  | nil => simp
  | cons a as ih => simp [ih]

theorem drop_len_append {α : Type} (l r : List α) : (l ++ r).drop l.length = r := by
  induction l with
  | nil => simp
  | cons a as ih => simp [ih]

theorem parseStrRaw_dump (s : String) (rest : List Char) :
    parseStrRaw (natChars s.data.length ++ ':' :: (s.data ++ rest)) = some (s, rest) := by
  unfold parseStrRaw
  rw [parseNatThen_natChars ':' s.data.length (s.data ++ rest) (by decide)]
  show some (String.mk ((s.data ++ rest).take s.data.length),
             (s.data ++ rest).drop s.data.length) = some (s, rest)
  rw [take_len_append, drop_len_append]

theorem parseL_zero (fuel : Nat) (cs : List Char) :
    parseL fuel 0 cs = some (.nil, cs) := by
  cases fuel <;> rfl

theorem parseO_zero (fuel : Nat) (cs : List Char) :
    parseO fuel 0 cs = some (.nil, cs) := by
  cases fuel <;> rfl

mutual
theorem parseJ_dumpJ : ∀ (j : Json) (rest : List Char) (fuel : Nat),
    sizeJ j ≤ fuel → parseJ fuel (dumpJ j ++ rest) = some (j, rest)
  | j, _, 0, h => absurd h (by have := sizeJ_pos j; omega)
  | .str s, rest, fuel+1, _ => by
    show parseJ (fuel+1) (('s' :: (natChars s.data.length ++ ':' :: s.data)) ++ rest)
        = some (.str s, rest)
    rw [List.cons_append, List.append_assoc, List.cons_append]
    have e : parseJ (fuel+1) ('s' :: (natChars s.data.length ++ ':' :: (s.data ++ rest)))
        = (parseStrRaw (natChars s.data.length ++ ':' :: (s.data ++ rest))).map
            (fun p => (Json.str p.1, p.2)) := rfl
    rw [e, parseStrRaw_dump]
    rfl
  | .num n, rest, fuel+1, _ => by
    show parseJ (fuel+1) (('n' :: (intChars n ++ [';'])) ++ rest) = some (.num n, rest)
    rw [List.cons_append, List.append_assoc, List.singleton_append]
    have e : parseJ (fuel+1) ('n' :: (intChars n ++ ';' :: rest))
        = (parseIntThen ';' (intChars n ++ ';' :: rest)).map
            (fun p => (Json.num p.1, p.2)) := rfl
    rw [e, parseIntThen_intChars ';' n rest (by decide)]
    rfl
  | .jbool true, rest, fuel+1, _ => rfl
  | .jbool false, rest, fuel+1, _ => rfl
  | .null, rest, fuel+1, _ => rfl
  | .arr l, rest, fuel+1, h => by
    show parseJ (fuel+1) (('a' :: (natChars (lenL l) ++ ':' :: dumpL l)) ++ rest)
        = some (.arr l, rest)
    rw [List.cons_append, List.append_assoc, List.cons_append]
    have e : parseJ (fuel+1) ('a' :: (natChars (lenL l) ++ ':' :: (dumpL l ++ rest)))
        = (parseNatThen ':' (natChars (lenL l) ++ ':' :: (dumpL l ++ rest))).bind (fun p =>
            (parseL fuel p.1 p.2).map (fun q => (Json.arr q.1, q.2))) := rfl
    rw [e, parseNatThen_natChars ':' (lenL l) (dumpL l ++ rest) (by decide)]
    show (parseL fuel (lenL l) (dumpL l ++ rest)).map (fun q => (Json.arr q.1, q.2))
        = some (.arr l, rest)
    rw [parseL_dumpL l rest fuel (by simp only [sizeJ] at h; omega)]
    rfl
  | .obj o, rest, fuel+1, h => by
    show parseJ (fuel+1) (('o' :: (natChars (lenO o) ++ ':' :: dumpO o)) ++ rest)
        = some (.obj o, rest)
    rw [List.cons_append, List.append_assoc, List.cons_append]
    have e : parseJ (fuel+1) ('o' :: (natChars (lenO o) ++ ':' :: (dumpO o ++ rest)))
        = (parseNatThen ':' (natChars (lenO o) ++ ':' :: (dumpO o ++ rest))).bind (fun p =>
            (parseO fuel p.1 p.2).map (fun q => (Json.obj q.1, q.2))) := rfl
    rw [e, parseNatThen_natChars ':' (lenO o) (dumpO o ++ rest) (by decide)]
    show (parseO fuel (lenO o) (dumpO o ++ rest)).map (fun q => (Json.obj q.1, q.2))
        = some (.obj o, rest)
    rw [parseO_dumpO o rest fuel (by simp only [sizeJ] at h; omega)]
    rfl

theorem parseL_dumpL : ∀ (l : JsonList) (rest : List Char) (fuel : Nat),
    sizeL l ≤ fuel → parseL fuel (lenL l) (dumpL l ++ rest) = some (l, rest)
  | .nil, rest, fuel, _ => by
    show parseL fuel 0 ([] ++ rest) = some (.nil, rest)
    rw [List.nil_append, parseL_zero]
  | .cons j l, rest, 0, h => absurd h (by simp only [sizeL]; omega)
  | .cons j l, rest, fuel+1, h => by
    show parseL (fuel+1) (lenL l + 1) ((dumpJ j ++ dumpL l) ++ rest) = some (.cons j l, rest)
    rw [List.append_assoc]
    have e : parseL (fuel+1) (lenL l + 1) (dumpJ j ++ (dumpL l ++ rest))
        = (parseJ fuel (dumpJ j ++ (dumpL l ++ rest))).bind (fun p =>
            (parseL fuel (lenL l) p.2).map (fun q => (JsonList.cons p.1 q.1, q.2))) := rfl
    rw [e, parseJ_dumpJ j (dumpL l ++ rest) fuel (by simp only [sizeL] at h; omega)]
    show (parseL fuel (lenL l) (dumpL l ++ rest)).map
        (fun q => (JsonList.cons j q.1, q.2)) = some (.cons j l, rest)
    rw [parseL_dumpL l rest fuel (by simp only [sizeL] at h; omega)]
    rfl

theorem parseO_dumpO : ∀ (o : JsonObj) (rest : List Char) (fuel : Nat),
    sizeO o ≤ fuel → parseO fuel (lenO o) (dumpO o ++ rest) = some (o, rest)
  | .nil, rest, fuel, _ => by
    show parseO fuel 0 ([] ++ rest) = some (.nil, rest)
    rw [List.nil_append, parseO_zero]
  | .cons k v o, rest, 0, h => absurd h (by simp only [sizeO]; omega)
  | .cons k v o, rest, fuel+1, h => by
    show parseO (fuel+1) (lenO o + 1)
        ((('s' :: (natChars k.data.length ++ ':' :: k.data)) ++ (dumpJ v ++ dumpO o)) ++ rest)
        = some (.cons k v o, rest)
    rw [List.cons_append, List.cons_append, List.append_assoc, List.append_assoc,
        List.append_assoc, List.cons_append]
    have e : parseO (fuel+1) (lenO o + 1)
        ('s' :: (natChars k.data.length ++ ':' :: (k.data ++ (dumpJ v ++ (dumpO o ++ rest)))))
        = (parseStrRaw (natChars k.data.length ++ ':' :: (k.data ++ (dumpJ v ++ (dumpO o ++ rest))))).bind (fun pk =>
            (parseJ fuel pk.2).bind (fun pv =>
              (parseO fuel (lenO o) pv.2).map (fun q => (JsonObj.cons pk.1 pv.1 q.1, q.2)))) := rfl
    rw [e, parseStrRaw_dump k (dumpJ v ++ (dumpO o ++ rest))]
    show (parseJ fuel (dumpJ v ++ (dumpO o ++ rest))).bind (fun pv =>
        (parseO fuel (lenO o) pv.2).map (fun q => (JsonObj.cons k pv.1 q.1, q.2)))
        = some (.cons k v o, rest)
    rw [parseJ_dumpJ v (dumpO o ++ rest) fuel (by simp only [sizeO] at h; omega)]
    show (parseO fuel (lenO o) (dumpO o ++ rest)).map
        (fun q => (JsonObj.cons k v q.1, q.2)) = some (.cons k v o, rest)
    rw [parseO_dumpO o rest fuel (by simp only [sizeO] at h; omega)]
    rfl
end

/-- Model of `json.loads` on a whole text: parse with ample fuel and require
that all input is consumed. -/
def jloads (cs : List Char) : Option Json :=
  match parseJ (3 * cs.length + 1) cs with
  | some (j, []) => some j
  | _ => none

/-- The model codec round-trips: `jloads (dumpJ j) = some j` — the contract
of the external `json` library on which the code under test relies. -/
theorem jloads_dumpJ (j : Json) : jloads (dumpJ j) = some j := by
  unfold jloads
  have h := parseJ_dumpJ j [] (3 * (dumpJ j).length + 1)
    (by have := sizeJ_le_dumpJ j; omega)
  rw [List.append_nil] at h
  rw [h]

/-- Model of `json.dumps` producing a `String`. -/
def jdumps (j : Json) : String := String.mk (dumpJ j)

/-- `json.loads` on a `String`. -/
def jloadsStr (s : String) : Option Json := jloads s.data

theorem jloadsStr_jdumps (j : Json) : jloadsStr (jdumps j) = some j :=
  jloads_dumpJ j

/-! ## Object key lookup (Python `dict` access on parsed JSON)

`json.loads` builds a Python dict; on duplicate keys the later entry wins,
and `d.get(k)` / `d[k]` return that entry.  -/

/-- `d.get(k)` on a parsed JSON object: later duplicate keys shadow earlier
ones, as in a Python dict built by insertion. -/
def lookupKey : JsonObj → String → Option Json
  | .nil, _ => none
  | .cons k' v rest, k =>
    match lookupKey rest k with
    | some r => some r
    | none => if k' = k then some v else none

/-! ## Wire envelope model

`pysher/asyncio/constants.py` -/

/-- Channel name given to messages without a `channel` field
(`SYSTEM_CHANNEL = 'system'`). -/
def SYSTEM_CHANNEL : String := "system"

/-! `Connection.send_event` (`pysher/connection.py`, lines 207-222):
builds `{'event': event_name, 'data': data}`, adds `'channel'` only when
`channel_name` is truthy, and writes `json.dumps(event)` to the socket
(note: `data` is written as given — it is *not* `json.dumps`-ed a second
time). -/

/-- The payload dict built by `Connection.send_event`. -/
def sendEventPayload (event_name : String) (data : Json) (channel_name : Option String) : Json :=
  .obj (.cons "event" (.str event_name) (.cons "data" data
    (match channel_name with
     | some c => if c = "" then .nil else .cons "channel" (.str c) .nil
     | none => .nil)))

/-- The wire text written by `Connection.send_event`. -/
def sendEventWire (event_name : String) (data : Json) (channel_name : Option String) : List Char :=
  dumpJ (sendEventPayload event_name data channel_name)

/-! `PusherWebsocketProtocol.recv` (`pysher/asyncio/connection.py`,
lines 145-172), decoding portion: the outer frame is `json.loads`-ed, the
`channel` field defaults to `SYSTEM_CHANNEL`, the `event` field is required,
and the `data` field is `json.loads`-ed a second time.  The Python
exceptions that escape this code (`json.JSONDecodeError`, `AttributeError`,
`KeyError`, `TypeError`) are the malformed-message failures of the spec. -/

/-- Failure modes of decoding a received frame. -/
inductive MalformedMessage where
  /-- `json.loads(message)` raised `JSONDecodeError`. -/
  | outerParse
  /-- `parsed_msg.get(...)` raised `AttributeError`: outer JSON is not an object. -/
  | notObject
  /-- `parsed_msg['event']` raised `KeyError`. -/
  | missingEvent
  /-- `parsed_msg['data']` raised `KeyError`. -/
  | missingData
  /-- `json.loads(parsed_msg['data'])` raised `TypeError`: `data` is not a string. -/
  | dataNotString
  /-- `json.loads(parsed_msg['data'])` raised `JSONDecodeError`. -/
  | dataParse
  deriving DecidableEq

/-- Decoding of a received frame, per `PusherWebsocketProtocol.recv`:
returns the `(channel, event, data)` triple. -/
def recvDecode (wire : List Char) : Except MalformedMessage (Json × Json × Json) :=
  match jloads wire with
  | none => .error .outerParse
  | some m =>
    match m with
    | .obj kvs =>
      let channel := (lookupKey kvs "channel").getD (.str SYSTEM_CHANNEL)
      match lookupKey kvs "event" with
      | none => .error .missingEvent
      | some event =>
        match lookupKey kvs "data" with
        | none => .error .missingData
        | some (.str s) =>
          match jloads s.data with
          | none => .error .dataParse
          | some data => .ok (channel, event, data)
        | some _ => .error .dataNotString
    | _ => .error .notObject

/-! ## ConnectionState (`pysher/asyncio/constants.py`, lines 12-67)

The class wraps `deque([INITIALIZED], maxlen=3)`; `update` appends on the
*right* (evicting on the left when full), `current()` and `is_available()`
read index 0 (the *leftmost* element). -/

/-- `ConnectionState.INITIALIZED` -/
def INITIALIZED : String := "initialized"
/-- `ConnectionState.CONNECTED` -/
def CONNECTED : String := "connected"
/-- `ConnectionState.UNAVAILABLE` -/
def UNAVAILABLE : String := "unavailable"
/-- `ConnectionState.FAILED` -/
def FAILED : String := "connection_failed"
/-- `ConnectionState.DISCONNECTED` -/
def DISCONNECTED : String := "disconnected"
/-- `ConnectionState.CONNECTION_CLOSED` -/
def CONNECTION_CLOSED : String := "connection_closed"

/-- `ConnectionState.__all__` -/
def stateAll : List String :=
  [INITIALIZED, CONNECTED, UNAVAILABLE, FAILED, DISCONNECTED, CONNECTION_CLOSED]

/-- The `ConnectionState` object: its `_state_history` deque, leftmost element
first (Python `deque` index 0). -/
structure PusherState where
  history : List String
  deriving DecidableEq

/-- `ConnectionState.__init__`: `deque([self.INITIALIZED], maxlen=3)`. -/
def PusherState.init : PusherState := ⟨[INITIALIZED]⟩

/-- `deque.append` with `maxlen=3`: add on the right, evict on the left. -/
def dequePush3 (l : List String) (x : String) : List String :=
  let l2 := l ++ [x]
  l2.drop (l2.length - 3)

/-- `ConnectionState.update`: validates against `__all__` (else `ValueError`),
then appends to the history deque. -/
def PusherState.update (s : PusherState) (new_state : String) :
    Except String PusherState :=
  if new_state ∈ stateAll then .ok ⟨dequePush3 s.history new_state⟩
  else .error "ValueError"

/-- `ConnectionState.current`: `self._state_history[0]` — deque index 0,
i.e. the leftmost (oldest retained) element. -/
def PusherState.current (s : PusherState) : String := s.history.headD ""

/-- `ConnectionState.is_available`: `self._state_history[0] is self.CONNECTED`
(identity on the interned class constant; modelled as string equality). -/
def PusherState.isAvailable (s : PusherState) : Bool := s.current == CONNECTED

/-- The most recently `update`d state — the deque's rightmost element.  This
is what both the class docstring ("the zero index is the current state",
with states appended going right) and the spec mean by "current state". -/
def PusherState.mostRecent (s : PusherState) : String := s.history.getLastD ""

/-! ## Protocol send (`pysher/asyncio/connection.py`, lines 103-124)

`send` forwards to the websocket transport only when
`pusher_state.current() is ConnectionState.CONNECTED`; otherwise it raises
`PusherServiceUnavailable(pusher_state, self.state)` carrying the pusher
state and the raw websocket state (`pysher/exceptions.py`, lines 19-25). -/

/-- `PusherServiceUnavailable(pusher_state, websocket_state)`. -/
inductive SendErr where
  | serviceUnavailable (pusher_state : String) (ws_state : String)
  deriving DecidableEq

/-- The protocol object's fields used by `send`: the `ConnectionState`
instance and the raw websocket connection state `self.state`. -/
structure ProtocolSt where
  pusher_state : PusherState
  ws_state : String

/-- `PusherWebsocketProtocol.send`: gate on the pusher state, then hand the
text to the transport (`super().send(data)`); the returned value is the frame
written to the socket. -/
def protocolSend (p : ProtocolSt) (data : List Char) : Except SendErr (List Char) :=
  let pusher_state := p.pusher_state.current
  if pusher_state = CONNECTED then .ok data
  else .error (.serviceUnavailable pusher_state p.ws_state)

/-- Sending one envelope: encode as `send_event` does, write via the
protocol `send` gate (the composition the spec calls
`send(event, data, channel?)`). -/
def sendEnvelope (p : ProtocolSt) (event : String) (data : Json)
    (channel : Option String) : Except SendErr (List Char) :=
  protocolSend p (sendEventWire event data channel)

/-! ## Connection thread state and error-code policy
(`pysher/connection.py`)

The fields of `Connection` that the reconnect machinery reads and writes.
`disconnect()` (lines 83-88) clears `needs_reconnect`, sets
`disconnect_called` and closes the socket (`self.join` is thread teardown,
outside this model).  `reconnect(interval)` (lines 90-99) stores the
interval (defaulting to `default_reconnect_interval`), sets
`needs_reconnect` and closes the socket.  The reconnect loop in `_connect`
(lines 117-126) runs while `self.needs_reconnect and not
self.disconnect_called`. -/

/-- The reconnect-relevant state of a `Connection`. -/
structure ConnSt where
  state : String
  needs_reconnect : Bool
  disconnect_called : Bool
  reconnect_interval : Nat
  default_reconnect_interval : Nat
  socket_closed : Bool
  deriving DecidableEq

/-- `Connection.disconnect` (sans thread join). -/
def ConnSt.disconnect (c : ConnSt) : ConnSt :=
  { c with needs_reconnect := false, disconnect_called := true, socket_closed := true }

/-- `Connection.reconnect(reconnect_interval=None)`. -/
def ConnSt.reconnect (c : ConnSt) (interval : Option Nat) : ConnSt :=
  { c with reconnect_interval := interval.getD c.default_reconnect_interval,
           needs_reconnect := true, socket_closed := true }

/-- The guard of the reconnect loop in `Connection._connect`:
`while self.needs_reconnect and not self.disconnect_called`. -/
def ConnSt.willReconnect (c : ConnSt) : Bool :=
  c.needs_reconnect && !c.disconnect_called

/-- Python `int(x)` on a JSON value, as used by
`Connection._pusher_error_handler`: numbers pass through, booleans coerce,
decimal strings parse (CPython also strips whitespace and accepts a `+`
sign — immaterial here), everything else raises (`None` result). -/
def pyInt (v : Json) : Option Int :=
  match v with
  | .num n => some n
  | .jbool b => some (if b then 1 else 0)
  | .str s =>
    match s.data with
    | [] => none
    | '-' :: ds => if ds ≠ [] ∧ ds.all isDigitCh then some (-(digitsVal 0 ds : Int)) else none
    | ds => if ds.all isDigitCh then some ((digitsVal 0 ds : Int)) else none
  | _ => none

/-- `Connection._pusher_error_handler` (lines 278-304): extract and coerce
the `code` field of a `pusher:error` data dict, then apply the range policy;
codes outside the three ranges (and missing/uncoercible codes) are only
logged. -/
def pusherErrorHandler (c : ConnSt) (data : JsonObj) : ConnSt :=
  match lookupKey data "code" with
  | none => c
  | some v =>
    match pyInt v with
    | none => c
    | some error_code =>
      if 4000 ≤ error_code ∧ error_code ≤ 4099 then c.disconnect
      else if 4100 ≤ error_code ∧ error_code ≤ 4199 then c.reconnect none
      else if 4200 ≤ error_code ∧ error_code ≤ 4299 then c.reconnect (some 0)
      else c

/-! ## Channels and callback dispatch (`pysher/channel.py`)

A callback is modelled as a function from the event data to either a normal
return or a raised exception; running a callback list yields the outcomes of
the callbacks that were actually invoked, plus the overall outcome of the
loop itself (normal return, or the exception that escaped it). -/

/-- A user callback: returns normally or raises. -/
def Cb : Type := Json → Except String Unit

/-- The loop body of `Channel._handle_event` (lines 38-41): plain
`callback(data, ...)` with **no** try/except — the first exception aborts
the loop and propagates.  Returns (outcomes of invoked callbacks, outcome of
the loop). -/
def runCallbacksNoCatch : List Cb → Json → List (Except String Unit) × Except String Unit
  | [], _ => ([], .ok ())
  | cb :: rest, d =>
    match cb d with
    | .ok _ =>
      let r := runCallbacksNoCatch rest d
      (.ok () :: r.1, r.2)
    | .error e => ([.error e], .error e)

/-- The connection-event loop body of `Connection._on_message` (lines
153-158): each `func(...)` is wrapped in `try .. except Exception:
logger.exception(..)`, so every callback is invoked and the loop always
returns normally. -/
def runCallbacksCatch (cbs : List Cb) (d : Json) : List (Except String Unit) :=
  cbs.map (fun cb => cb d)

/-- A `Channel` object: name, auth token (`auth=None` by default),
and `event_callbacks` (event name → callback list, in binding order). -/
structure ChannelM where
  name : String
  auth : Option String
  callbacks : List (String × List Cb)

/-- First-match association lookup (keys are unique in these registries). -/
def assocGet {α : Type} : List (String × α) → String → Option α
  | [], _ => none
  | (k', v) :: rest, k => if k' = k then some v else assocGet rest k

/-- Python dict assignment `m[k] = v`: replace in place, else append. -/
def assocSet {α : Type} : List (String × α) → String → α → List (String × α)
  | [], k, v => [(k, v)]
  | (k', v') :: rest, k, v =>
    if k' = k then (k, v) :: rest else (k', v') :: assocSet rest k v

/-- `Channel._handle_event(event_name, data)`: run the bound callbacks for
that event (none bound: nothing runs). -/
def ChannelM.handleEvent (ch : ChannelM) (event_name : String) (d : Json) :
    List (Except String Unit) × Except String Unit :=
  match assocGet ch.callbacks event_name with
  | some cbs => runCallbacksNoCatch cbs d
  | none => ([], .ok ())

/-! ## The Pusher client (`src/pysher/pusher.py`)

External collaborators: `hmac.new(secret, subject, hashlib.sha256).digest()`
is an abstract 32-byte digest function, and `requests.post` to the auth
endpoint is an abstract function returning the `auth` field of a 200
response. -/

/-- The stdlib/HTTP collaborators of `Pusher`. -/
structure Externals where
  /-- `hmac.new(secret, subject, hashlib.sha256)`: secret and subject to
  digest bytes. -/
  hmacSha256 : String → String → List Nat
  /-- `requests.post(auth_endpoint, data=..., headers=...)` → the `auth`
  field of the 200 JSON response (given channel name and socket id). -/
  authPost : String → String → String

/-- The configuration fields of a `Pusher` instance. -/
structure PusherCfg where
  key : String
  secret : String
  auth_endpoint : Option String
  user_data : Json

/-- The mutable client state: the channel registry and the socket id the
server assigned to the connection. -/
structure PusherSt where
  channels : List (String × ChannelM)
  socket_id : String

/-- Python truthiness of an optional string (`None` and `""` are falsy). -/
def optTruthy : Option String → Bool
  | none => false
  | some s => s ≠ ""

/-- `str.startswith(pat)`. -/
def listStarts : List Char → List Char → Bool
  | [], _ => true
  | _ :: _, [] => false
  | a :: as_, b :: bs => a = b && listStarts as_ bs

/-- `s.startswith(pat)` on strings. -/
def strStarts (pat s : String) : Bool := listStarts pat.data s.data

/-- Lowercase hex character for a nibble (`binascii` / `hexdigest` style). -/
def hexChar (n : Nat) : Char :=
  if n < 10 then Char.ofNat (48 + n) else Char.ofNat (87 + n)

/-- `.hexdigest()`: each byte as two lowercase hex characters. -/
def hexDigest (bytes : List Nat) : String :=
  String.mk ((bytes.map (fun b => [hexChar (b / 16), hexChar (b % 16)])).flatten)

/-- Raised when signing is requested but neither a secret nor an auth
endpoint is configured — the code raises `NotImplementedError`; the spec
names this failure `SigningNotConfigured`. -/
inductive SignErr where
  | signingNotConfigured
  deriving DecidableEq

/-- `Pusher._generate_auth_token` (lines 157-183): raise if neither secret
nor endpoint is configured; with a secret, HMAC-SHA-256 sign
`"{socket_id}:{channel_name}"` and return `"{key}:{hexdigest}"`; otherwise
delegate to the auth endpoint. -/
def generateAuthToken (ext : Externals) (cfg : PusherCfg) (socket_id channel_name : String) :
    Except SignErr String :=
  if cfg.secret = "" ∧ optTruthy cfg.auth_endpoint = false then .error .signingNotConfigured
  else if cfg.secret ≠ "" then
    let subject := socket_id ++ ":" ++ channel_name
    .ok (cfg.key ++ ":" ++ hexDigest (ext.hmacSha256 cfg.secret subject))
  else
    .ok (ext.authPost channel_name socket_id)

/-- `Pusher._generate_presence_token` (lines 185-212): as
`_generate_auth_token`, with subject
`"{socket_id}:{channel_name}:{json.dumps(user_data)}"` and `user_data` also
posted to the endpoint. -/
def generatePresenceToken (ext : Externals) (cfg : PusherCfg) (socket_id channel_name : String) :
    Except SignErr String :=
  if cfg.secret = "" ∧ optTruthy cfg.auth_endpoint = false then .error .signingNotConfigured
  else if cfg.secret ≠ "" then
    let subject := socket_id ++ ":" ++ channel_name ++ ":" ++ jdumps cfg.user_data
    .ok (cfg.key ++ ":" ++ hexDigest (ext.hmacSha256 cfg.secret subject))
  else
    .ok (ext.authPost channel_name socket_id)

/-- An event handed to `Connection.send_event`:
`(event_name, data, channel_name)`. -/
def SentEvent : Type := String × Json × Option String

/-- Append a key to a (duplicate-free) data dict, as Python
`data['k'] = v` does for a fresh key. -/
def objAppend : JsonObj → String → Json → JsonObj
  | .nil, k, v => .cons k v .nil
  | .cons k' v' rest, k, v => .cons k' v' (objAppend rest k v)

/-- The subscribe data dict built by the first half of `Pusher.subscribe`:
`{'channel': name}`, plus `'auth'` (signed, or the externally supplied
token) and, for presence channels, `'channel_data'`.  An `.error` is the
`NotImplementedError` escaping from token generation. -/
def subscribeData (ext : Externals) (cfg : PusherCfg) (socket_id : String)
    (channel_name : String) (auth : Option String) : Except SignErr JsonObj :=
  let base : JsonObj := .cons "channel" (.str channel_name) .nil
  match auth with
  | none =>
    if strStarts "presence-" channel_name then
      match generatePresenceToken ext cfg socket_id channel_name with
      | .error e => .error e
      | .ok tok =>
        .ok (objAppend (objAppend base "auth" (.str tok))
              "channel_data" (.str (jdumps cfg.user_data)))
    else if strStarts "private-" channel_name then
      match generateAuthToken ext cfg socket_id channel_name with
      | .error e => .error e
      | .ok tok => .ok (objAppend base "auth" (.str tok))
    else .ok base
  | some a => .ok (objAppend base "auth" (.str a))

/-- `Pusher.subscribe(channel_name, auth=None)` (lines 93-114): build the
subscribe data dict (a raise there aborts before anything is sent), send the
`pusher:subscribe` event, then register **a fresh
`Channel(channel_name, self.connection)`** (no auth stored) and return it.
Result: (events handed to `send_event`, error or (new state, returned
channel)). -/
def subscribe (ext : Externals) (cfg : PusherCfg) (st : PusherSt)
    (channel_name : String) (auth : Option String) :
    List SentEvent × Except SignErr (PusherSt × ChannelM) :=
  match subscribeData ext cfg st.socket_id channel_name auth with
  | .error e => ([], .error e)
  | .ok data =>
    let fresh : ChannelM := ⟨channel_name, none, []⟩
    ([("pusher:subscribe", Json.obj data, none)],
     .ok ({ st with channels := assocSet st.channels channel_name fresh }, fresh))

/-- `Pusher._reconnect_handler` (lines 147-155): for every registered
channel, re-send `pusher:subscribe` with `{'channel': name}` plus `'auth'`
only when `channel.auth` is truthy. -/
def reconnectHandler (st : PusherSt) : List SentEvent :=
  st.channels.map (fun nc =>
    let base : JsonObj := .cons "channel" (.str nc.1) .nil
    let data : JsonObj :=
      match nc.2.auth with
      | some a => if a = "" then base else objAppend base "auth" (.str a)
      | none => base
    ("pusher:subscribe", Json.obj data, none))

/-- `Pusher._connection_handler` (lines 137-145): route an inbound channel
event to the registered channel's `_handle_event`; unknown channel names are
dropped. -/
def connectionHandler (st : PusherSt) (event_name : String) (d : Json)
    (channel_name : String) : List (Except String Unit) × Except String Unit :=
  match assocGet st.channels channel_name with
  | some ch => ch.handleEvent event_name d
  | none => ([], .ok ())

/-! # Claim theorems -/

/-- C1: the claim says `current()` returns the most recently set state and
`is_available()` is true iff that state is CONNECTED.  The code appends new
states to the *right* of the `maxlen=3` deque but reads index 0 (the
*leftmost*, i.e. oldest retained, element) — contradicting the class's own
docstring ("the zero index is the current state").  Concretely: after
`update(CONNECTED)` from the initial state, the history is
`['initialized', 'connected']`, the most recent state is CONNECTED, yet
`current()` returns `'initialized'` and `is_available()` is False. -/
theorem c1_connectionstate_current_bug :
    PusherState.init.update CONNECTED = .ok ⟨[INITIALIZED, CONNECTED]⟩
  ∧ (PusherState.mk [INITIALIZED, CONNECTED]).mostRecent = CONNECTED
  ∧ (PusherState.mk [INITIALIZED, CONNECTED]).current = INITIALIZED
  ∧ (PusherState.mk [INITIALIZED, CONNECTED]).current ≠ CONNECTED
  ∧ (PusherState.mk [INITIALIZED, CONNECTED]).isAvailable = false := by
  refine ⟨rfl, rfl, rfl, by decide, by decide⟩

/-- C2: on a `pusher:error` message whose data carries an integer `code`,
`Connection._pusher_error_handler` applies the range policy: 4000-4099
disconnects (socket closed, and the `_connect` reconnect loop will not run);
4100-4199 requests a reconnect at the configured default interval; 4200-4299
requests a reconnect at interval 0; any other code leaves the connection
state entirely unchanged (log only). -/
theorem c2_pusher_error_code_policy (c : ConnSt) (data : JsonObj) (code : Int)
    (hcode : lookupKey data "code" = some (.num code))
    (hdc : c.disconnect_called = false) :
    (4000 ≤ code ∧ code ≤ 4099 →
      (pusherErrorHandler c data).socket_closed = true ∧
      (pusherErrorHandler c data).willReconnect = false)
  ∧ (4100 ≤ code ∧ code ≤ 4199 →
      (pusherErrorHandler c data).willReconnect = true ∧
      (pusherErrorHandler c data).reconnect_interval = c.default_reconnect_interval)
  ∧ (4200 ≤ code ∧ code ≤ 4299 →
      (pusherErrorHandler c data).willReconnect = true ∧
      (pusherErrorHandler c data).reconnect_interval = 0)
  ∧ ((code < 4000 ∨ 4300 ≤ code) → pusherErrorHandler c data = c) := by
  have e : pusherErrorHandler c data =
      (if 4000 ≤ code ∧ code ≤ 4099 then c.disconnect
       else if 4100 ≤ code ∧ code ≤ 4199 then c.reconnect none
       else if 4200 ≤ code ∧ code ≤ 4299 then c.reconnect (some 0)
       else c) := by
    unfold pusherErrorHandler
    rw [hcode]
    rfl
  refine ⟨fun h => ?_, fun h => ?_, fun h => ?_, fun h => ?_⟩
  · rw [e, if_pos h]
    exact ⟨rfl, by simp [ConnSt.disconnect, ConnSt.willReconnect]⟩
  · rw [e, if_neg (by omega), if_pos h]
    exact ⟨by simp [ConnSt.reconnect, ConnSt.willReconnect, hdc], rfl⟩
  · rw [e, if_neg (by omega), if_neg (by omega), if_pos h]
    exact ⟨by simp [ConnSt.reconnect, ConnSt.willReconnect, hdc], rfl⟩
  · rw [e, if_neg (by omega), if_neg (by omega), if_neg (by omega)]

/-- C2 witness: error code 4150 on a live connection with default interval
10 requests a reconnect after 10 seconds. -/
theorem c2_pusher_error_code_policy_witness :
    (pusherErrorHandler ⟨"connected", false, false, 10, 10, false⟩
       (.cons "code" (.num 4150) .nil)).willReconnect = true
  ∧ (pusherErrorHandler ⟨"connected", false, false, 10, 10, false⟩
       (.cons "code" (.num 4150) .nil)).reconnect_interval = 10 :=
  (c2_pusher_error_code_policy ⟨"connected", false, false, 10, 10, false⟩
     (.cons "code" (.num 4150) .nil) 4150 rfl rfl).2.1 ⟨by norm_num, by norm_num⟩

/-- C3: a send attempted while `pusher_state.current()` is not CONNECTED
raises `PusherServiceUnavailable` carrying the pusher state and the raw
websocket state; when it is CONNECTED, the encoded envelope is written to
the transport. -/
theorem c3_send_gate (p : ProtocolSt) (event : String) (data : Json)
    (channel : Option String) :
    (p.pusher_state.current ≠ CONNECTED →
      sendEnvelope p event data channel =
        .error (.serviceUnavailable p.pusher_state.current p.ws_state))
  ∧ (p.pusher_state.current = CONNECTED →
      sendEnvelope p event data channel =
        .ok (dumpJ (sendEventPayload event data channel))) := by
  unfold sendEnvelope protocolSend sendEventWire
  exact ⟨fun h => by rw [if_neg h], fun h => by rw [if_pos h]⟩

/-- C3 witness: with history `['initialized', 'connected']` (current() reads
`'initialized'`) the send fails carrying both states; with history
`['connected']` the encoded frame is written. -/
theorem c3_send_gate_witness :
    sendEnvelope ⟨⟨["initialized", "connected"]⟩, "OPEN"⟩ "pusher:ping" (.str "") none
      = .error (.serviceUnavailable "initialized" "OPEN")
  ∧ sendEnvelope ⟨⟨["connected"]⟩, "OPEN"⟩ "pusher:ping" (.str "") none
      = .ok (dumpJ (sendEventPayload "pusher:ping" (.str "") none)) :=
  ⟨(c3_send_gate ⟨⟨["initialized", "connected"]⟩, "OPEN"⟩ "pusher:ping" (.str "") none).1
     (by decide),
   (c3_send_gate ⟨⟨["connected"]⟩, "OPEN"⟩ "pusher:ping" (.str "") none).2 rfl⟩

/-- C4: decoding a received frame parses the outer JSON, then parses the
`data` field as JSON a second time; it fails (with the spec's
`MalformedMessage` class of errors — the uncaught `JSONDecodeError` /
`KeyError` the Python code lets escape) if either parse fails or the `event`
key is missing; and when no `channel` field is present the decoded channel
is the reserved system channel. -/
theorem c4_recv_decode (wire : List Char) :
    (jloads wire = none → recvDecode wire = .error .outerParse)
  ∧ (∀ kvs : JsonObj, jloads wire = some (.obj kvs) →
      lookupKey kvs "event" = none → recvDecode wire = .error .missingEvent)
  ∧ (∀ (kvs : JsonObj) (ev : Json) (s : String),
      jloads wire = some (.obj kvs) → lookupKey kvs "event" = some ev →
      lookupKey kvs "data" = some (.str s) → jloads s.data = none →
      recvDecode wire = .error .dataParse)
  ∧ (∀ (kvs : JsonObj) (ev : Json) (s : String) (d : Json),
      jloads wire = some (.obj kvs) → lookupKey kvs "channel" = none →
      lookupKey kvs "event" = some ev → lookupKey kvs "data" = some (.str s) →
      jloads s.data = some d →
      recvDecode wire = .ok (.str SYSTEM_CHANNEL, ev, d)) := by
  refine ⟨fun h => ?_, fun kvs h1 h2 => ?_, fun kvs ev s h1 h2 h3 h4 => ?_,
          fun kvs ev s d h1 hch h2 h3 h4 => ?_⟩
  · unfold recvDecode
    rw [h]
  · simp only [recvDecode, h1, h2]
  · simp only [recvDecode, h1, h2, h3, h4]
  · simp only [recvDecode, h1, hch, h2, h3, h4, Option.getD_none]

/-- C4 witness: a non-JSON frame, a frame without `event`, a frame whose
`data` string is not JSON, and a well-formed channel-less frame, each
decoded as the theorem states. -/
theorem c4_recv_decode_witness :
    recvDecode ['x'] = .error .outerParse
  ∧ recvDecode (dumpJ (.obj (.cons "data" (.str "z") .nil))) = .error .missingEvent
  ∧ recvDecode (dumpJ (.obj (.cons "event" (.str "e") (.cons "data" (.str "?") .nil))))
      = .error .dataParse
  ∧ recvDecode (dumpJ (.obj (.cons "event" (.str "e") (.cons "data" (.str "z") .nil))))
      = .ok (.str SYSTEM_CHANNEL, .str "e", .null) :=
  ⟨(c4_recv_decode ['x']).1 rfl,
   (c4_recv_decode _).2.1 (.cons "data" (.str "z") .nil) rfl rfl,
   (c4_recv_decode _).2.2.1 (.cons "event" (.str "e") (.cons "data" (.str "?") .nil))
     (.str "e") "?" rfl rfl rfl rfl,
   (c4_recv_decode _).2.2.2 (.cons "event" (.str "e") (.cons "data" (.str "z") .nil))
     (.str "e") "z" .null rfl rfl rfl rfl rfl⟩

/-- C5 counterexample: the claim promises `decode (encode (event, data,
channel))` returns the original triple for every valid envelope.  It fails
already for the structured payload `1` with no channel: `send_event` writes
`data` *without* a second JSON encoding, so `recv`'s second
`json.loads(parsed_msg['data'])` receives a non-string and raises
`TypeError` instead of returning the envelope. -/
theorem c5_roundtrip_counterexample :
    recvDecode (sendEventWire "e" (.num 1) none) = .error .dataNotString
  ∧ recvDecode (sendEventWire "e" (.num 1) none)
      ≠ .ok (.str SYSTEM_CHANNEL, .str "e", .num 1) := by
  have h : recvDecode (sendEventWire "e" (.num 1) none) = .error .dataNotString := rfl
  exact ⟨h, fun hcontra => Except.noConfusion (h.symm.trans hcontra)⟩

/-- C5 (amended): the round-trip holds for payloads handed to `send_event`
already JSON-serialized (as the wire protocol expects): for every event
name, payload `d` and non-empty channel, decoding the encoding of
`(event, dumps d, channel)` yields `(channel, event, d)`; with the channel
absent, decoding yields the reserved system channel in its place (not the
original absence). -/
theorem c5_roundtrip_amended (e : String) (d : Json) (c : String) (hc : c ≠ "") :
    recvDecode (sendEventWire e (.str (jdumps d)) (some c)) = .ok (.str c, .str e, d)
  ∧ recvDecode (sendEventWire e (.str (jdumps d)) none)
      = .ok (.str SYSTEM_CHANNEL, .str e, d) := by
  constructor
  · have hkvs : sendEventPayload e (.str (jdumps d)) (some c) =
        .obj (.cons "event" (.str e) (.cons "data" (.str (jdumps d))
          (.cons "channel" (.str c) .nil))) := by
      simp only [sendEventPayload]
      rw [if_neg hc]
    have h1 : jloads (sendEventWire e (.str (jdumps d)) (some c)) =
        some (.obj (.cons "event" (.str e) (.cons "data" (.str (jdumps d))
          (.cons "channel" (.str c) .nil)))) := by
      unfold sendEventWire
      rw [hkvs]
      exact jloads_dumpJ _
    have h2 : lookupKey (.cons "event" (.str e) (.cons "data" (.str (jdumps d))
        (.cons "channel" (.str c) .nil))) "event" = some (.str e) := rfl
    have h3 : lookupKey (.cons "event" (.str e) (.cons "data" (.str (jdumps d))
        (.cons "channel" (.str c) .nil))) "data" = some (.str (jdumps d)) := rfl
    have hch : lookupKey (.cons "event" (.str e) (.cons "data" (.str (jdumps d))
        (.cons "channel" (.str c) .nil))) "channel" = some (.str c) := rfl
    have h4 : jloads (jdumps d).data = some d := jloads_dumpJ d
    simp only [recvDecode, h1, h2, h3, hch, h4, Option.getD_some]
  · have h1 : jloads (sendEventWire e (.str (jdumps d)) none) =
        some (.obj (.cons "event" (.str e) (.cons "data" (.str (jdumps d)) .nil))) :=
      jloads_dumpJ _
    have h2 : lookupKey (.cons "event" (.str e) (.cons "data" (.str (jdumps d)) .nil))
        "event" = some (.str e) := rfl
    have h3 : lookupKey (.cons "event" (.str e) (.cons "data" (.str (jdumps d)) .nil))
        "data" = some (.str (jdumps d)) := rfl
    have hch : lookupKey (.cons "event" (.str e) (.cons "data" (.str (jdumps d)) .nil))
        "channel" = none := rfl
    have h4 : jloads (jdumps d).data = some d := jloads_dumpJ d
    simp only [recvDecode, h1, h2, h3, hch, h4, Option.getD_none]

/-- C5 amended witness: a concrete envelope with payload `null` on channel
`"ch"`, and the same without a channel. -/
theorem c5_roundtrip_amended_witness :
    recvDecode (sendEventWire "my-event" (.str (jdumps .null)) (some "ch"))
      = .ok (.str "ch", .str "my-event", .null)
  ∧ recvDecode (sendEventWire "my-event" (.str (jdumps .null)) none)
      = .ok (.str SYSTEM_CHANNEL, .str "my-event", .null) :=
  c5_roundtrip_amended "my-event" .null "ch" (by decide)

/-- C6: the claim says the reconnect handler reuses the auth token stored on
each `Channel` at subscribe time.  But `Pusher.subscribe` registers
`Channel(channel_name, self.connection)` *without* passing the token it just
sent (even an externally supplied `auth`), so `channel.auth` is `None` and
`_reconnect_handler`'s `if channel.auth:` branch never fires for channels
created through `subscribe`: the re-subscribe envelope for `"private-foo"`
carries no `auth` field at all.  The conjuncts: subscribing with external
token `"tok"` does send the token, but registers an auth-less channel; the
reconnect handler then re-subscribes with a data dict that has no `auth`
key. -/
theorem c6_reconnect_auth_not_stored :
    (subscribe ⟨fun _ _ => [], fun _ _ => ""⟩ ⟨"k", "s", none, .null⟩
        ⟨[], "123.45"⟩ "private-foo" (some "tok"))
      = ([("pusher:subscribe",
            Json.obj (.cons "channel" (.str "private-foo")
              (.cons "auth" (.str "tok") .nil)), none)],
         .ok (⟨[("private-foo", ⟨"private-foo", none, []⟩)], "123.45"⟩,
              ⟨"private-foo", none, []⟩))
  ∧ reconnectHandler ⟨[("private-foo", ⟨"private-foo", none, []⟩)], "123.45"⟩
      = [("pusher:subscribe",
           Json.obj (.cons "channel" (.str "private-foo") .nil), none)]
  ∧ lookupKey (.cons "channel" (.str "private-foo") .nil) "auth" = none :=
  ⟨rfl, rfl, rfl⟩

/-- C7 counterexample: the claim says a raising callback is caught and the
remaining callbacks for the event still run.  In `Channel._handle_event`
there is no try/except: with two callbacks bound to `"ev"`, the first
raising, only one callback outcome is produced and the exception escapes the
dispatch loop. -/
theorem c7_dispatch_counterexample :
    ChannelM.handleEvent
        ⟨"ch", none, [("ev", [fun _ => .error "boom", fun _ => .ok ()])]⟩ "ev" .null
      = ([.error "boom"], .error "boom")
  ∧ (ChannelM.handleEvent
        ⟨"ch", none, [("ev", [fun _ => .error "boom", fun _ => .ok ()])]⟩ "ev" .null).1.length
      = 1
  ∧ (ChannelM.handleEvent
        ⟨"ch", none, [("ev", [fun _ => .error "boom", fun _ => .ok ()])]⟩ "ev" .null).2
      ≠ .ok () := by
  have h : ChannelM.handleEvent
      ⟨"ch", none, [("ev", [fun _ => .error "boom", fun _ => .ok ()])]⟩ "ev" .null
      = ([.error "boom"], .error "boom") := rfl
  refine ⟨h, by rw [h]; rfl, ?_⟩
  rw [h]
  exact fun hcontra => Except.noConfusion hcontra

/-- Helper for the C7 amended claim: `runCallbacksNoCatch` aborts at the
first raising callback. -/
theorem runCallbacksNoCatch_abort (pre post : List Cb) (cb : Cb) (d : Json) (e : String)
    (hpre : ∀ c ∈ pre, c d = .ok ())
    (hcb : cb d = .error e) :
    runCallbacksNoCatch (pre ++ cb :: post) d
      = (pre.map (fun _ => Except.ok ()) ++ [.error e], .error e) := by
  induction pre with
  | nil =>
    simp only [List.nil_append, List.map_nil, runCallbacksNoCatch, hcb]
  | cons c cs ih =>
    have hc : c d = .ok () := hpre c (List.mem_cons_self c cs)
    have ih2 := ih (fun x hx => hpre x (List.mem_cons_of_mem c hx))
    simp only [List.cons_append, runCallbacksNoCatch, hc, List.map_cons,
      List.append_eq] at ih2 ⊢
    rw [ih2]

/-- C7 (amended): exception isolation holds for the *connection-level*
callback loop in `Connection._on_message` (each callback is wrapped in
try/except, so every bound callback runs even when an earlier one raises),
but not for `Channel._handle_event`: there, the first raising callback
aborts the loop — callbacks after it do not run — and the exception
propagates out of the dispatch. -/
theorem c7_dispatch_amended (pre post : List Cb) (cb : Cb) (d : Json) (e : String)
    (hpre : ∀ c ∈ pre, c d = .ok ())
    (hcb : cb d = .error e) :
    runCallbacksNoCatch (pre ++ cb :: post) d
      = (pre.map (fun _ => Except.ok ()) ++ [.error e], .error e)
  ∧ runCallbacksCatch (pre ++ cb :: post) d
      = pre.map (fun c => c d) ++ .error e :: post.map (fun c => c d)
  ∧ (runCallbacksCatch (pre ++ cb :: post) d).length = pre.length + 1 + post.length := by
  refine ⟨runCallbacksNoCatch_abort pre post cb d e hpre hcb, ?_, ?_⟩
  · simp [runCallbacksCatch, hcb]
  · simp [runCallbacksCatch]
    omega

/-- C7 amended witness: three connection-level callbacks all run (middle one
raising); the same list under channel dispatch stops at the exception. -/
theorem c7_dispatch_amended_witness :
    runCallbacksNoCatch
        [fun _ => .ok (), fun _ => .error "boom", fun _ => .ok ()] .null
      = ([.ok (), .error "boom"], .error "boom")
  ∧ runCallbacksCatch
        [fun _ => .ok (), fun _ => .error "boom", fun _ => .ok ()] .null
      = [.ok (), .error "boom", .ok ()]
  ∧ (runCallbacksCatch
        [fun _ => .ok (), fun _ => .error "boom", fun _ => .ok ()] .null).length = 3 :=
  c7_dispatch_amended [fun _ => .ok ()] [fun _ => .ok ()]
    (fun _ => .error "boom") .null "boom"
    (fun c hc => by
      rcases List.mem_singleton.1 hc with rfl
      rfl)
    rfl

/-- Channel-name prefixes: a name cannot start with both `"private-"` and
`"presence-"` (they differ at the third character). -/
theorem not_presence_of_private (s : String)
    (h : strStarts "private-" s = true) : strStarts "presence-" s = false := by
  unfold strStarts at h ⊢
  have hp : "private-".data = ['p', 'r', 'i', 'v', 'a', 't', 'e', '-'] := rfl
  have hq : "presence-".data = ['p', 'r', 'e', 's', 'e', 'n', 'c', 'e', '-'] := rfl
  rw [hp] at h
  rw [hq]
  revert h
  rcases s.data with _ | ⟨a, _ | ⟨b, _ | ⟨c, rest⟩⟩⟩ <;> intro h
  · simp [listStarts] at h
  · simp [listStarts] at h
  · simp [listStarts] at h
  · simp only [listStarts, Bool.and_eq_true, decide_eq_true_eq] at h
    obtain ⟨h1, h2, h3, h4⟩ := h
    subst h1
    subst h2
    subst h3
    simp [listStarts]

/-- C8: subscribing to a presence- or private- channel with no signing
secret, no auth endpoint and no externally supplied token fails with the
signing-not-configured error (the `NotImplementedError` raise in
`_generate_presence_token` / `_generate_auth_token`), and nothing is handed
to `send_event` — the raise happens while building the subscribe data dict,
before the `send_event` call. -/
theorem c8_signing_not_configured (ext : Externals) (cfg : PusherCfg) (st : PusherSt)
    (name : String)
    (hsec : cfg.secret = "")
    (hep : optTruthy cfg.auth_endpoint = false)
    (hname : strStarts "presence-" name = true ∨ strStarts "private-" name = true) :
    subscribe ext cfg st name none = ([], .error .signingNotConfigured) := by
  have hp : generatePresenceToken ext cfg st.socket_id name = .error .signingNotConfigured := by
    unfold generatePresenceToken
    rw [if_pos ⟨hsec, hep⟩]
  have ha : generateAuthToken ext cfg st.socket_id name = .error .signingNotConfigured := by
    unfold generateAuthToken
    rw [if_pos ⟨hsec, hep⟩]
  have hd : subscribeData ext cfg st.socket_id name none = .error .signingNotConfigured := by
    unfold subscribeData
    rcases hname with h | h
    · simp only [h, if_true, hp]
    · have hps : strStarts "presence-" name = false := not_presence_of_private name h
      simp only [hps, h, if_true, Bool.false_eq_true, if_false, ha]
  unfold subscribe
  rw [hd]

/-- C8 witness: subscribing to `"presence-room"` with empty secret and no
endpoint fails and sends nothing. -/
theorem c8_signing_not_configured_witness :
    subscribe ⟨fun _ _ => [], fun _ _ => ""⟩ ⟨"k", "", none, .null⟩ ⟨[], "sid"⟩
        "presence-room" none
      = ([], .error .signingNotConfigured) :=
  c8_signing_not_configured ⟨fun _ _ => [], fun _ _ => ""⟩ ⟨"k", "", none, .null⟩
    ⟨[], "sid"⟩ "presence-room" rfl rfl (Or.inl rfl)

/-- Lowercase-hex characters (`0`-`9`, `a`-`f`). -/
def isLowerHexCh (c : Char) : Bool :=
  (48 ≤ c.toNat && c.toNat ≤ 57) || (97 ≤ c.toNat && c.toNat ≤ 102)

theorem hexChar_lower {n : Nat} (h : n < 16) : isLowerHexCh (hexChar n) = true := by
  interval_cases n <;> decide

/-- `hexdigest` of a byte list: two lowercase hex characters per byte. -/
theorem hexDigest_spec (bytes : List Nat) (hb : ∀ b ∈ bytes, b < 256) :
    (hexDigest bytes).data.length = 2 * bytes.length
  ∧ ∀ c ∈ (hexDigest bytes).data, isLowerHexCh c = true := by
  show (List.flatten _).length = _ ∧ ∀ c ∈ List.flatten _, _
  induction bytes with
  | nil => simp
  | cons b bs ih =>
    have hb0 : b < 256 := hb b (List.mem_cons_self b bs)
    obtain ⟨ih1, ih2⟩ := ih (fun x hx => hb x (List.mem_cons_of_mem b hx))
    constructor
    · simp only [List.map_cons, List.flatten_cons, List.length_append, ih1,
        List.length_cons, List.length_nil]
      omega
    · intro c hc
      simp only [List.map_cons, List.flatten_cons, List.mem_append] at hc
      rcases hc with hc | hc
      · rcases List.mem_cons.1 hc with rfl | hc2
        · exact hexChar_lower (by omega)
        · rcases List.mem_singleton.1 hc2 with rfl
          exact hexChar_lower (by omega)
      · exact ih2 c hc

/-- C9: with a non-empty secret, local signing produces exactly
`"{key}:{hexdigest}"` where the digest is the (abstract, 32-byte)
HMAC-SHA-256 of the subject `"{socket_id}:{channel_name}"` keyed by the
secret, rendered as 64 lowercase hex characters.  Determinism is inherent:
the model is a pure function of its inputs. -/
theorem c9_private_token (ext : Externals) (cfg : PusherCfg)
    (socket_id channel_name : String)
    (hsec : cfg.secret ≠ "")
    (hlen : (ext.hmacSha256 cfg.secret (socket_id ++ ":" ++ channel_name)).length = 32)
    (hbytes : ∀ b ∈ ext.hmacSha256 cfg.secret (socket_id ++ ":" ++ channel_name), b < 256) :
    generateAuthToken ext cfg socket_id channel_name
      = .ok (cfg.key ++ ":" ++
          hexDigest (ext.hmacSha256 cfg.secret (socket_id ++ ":" ++ channel_name)))
  ∧ (hexDigest (ext.hmacSha256 cfg.secret (socket_id ++ ":" ++ channel_name))).length = 64
  ∧ ∀ c ∈ (hexDigest (ext.hmacSha256 cfg.secret (socket_id ++ ":" ++ channel_name))).data,
      isLowerHexCh c = true := by
  obtain ⟨hlen2, hchars⟩ :=
    hexDigest_spec (ext.hmacSha256 cfg.secret (socket_id ++ ":" ++ channel_name)) hbytes
  refine ⟨?_, ?_, hchars⟩
  · unfold generateAuthToken
    rw [if_neg (fun hand => hsec hand.1), if_pos hsec]
  · show (hexDigest _).data.length = 64
    rw [hlen2, hlen]

/-- C9 witness: concrete inputs (secret `"s"`, key `"k"`, socket id
`"123.456"`, channel `"private-foo"`) with the all-zero 32-byte digest. -/
theorem c9_private_token_witness :
    generateAuthToken ⟨fun _ _ => List.replicate 32 0, fun _ _ => ""⟩
        ⟨"k", "s", none, .null⟩ "123.456" "private-foo"
      = .ok ("k" ++ ":" ++ hexDigest (List.replicate 32 0))
  ∧ (hexDigest (List.replicate 32 0)).length = 64
  ∧ ∀ c ∈ (hexDigest (List.replicate 32 0)).data, isLowerHexCh c = true :=
  c9_private_token ⟨fun _ _ => List.replicate 32 0, fun _ _ => ""⟩
    ⟨"k", "s", none, .null⟩ "123.456" "private-foo"
    (by decide) (by decide)
    (fun b hb => by
      rw [List.eq_of_mem_replicate hb]
      decide)

/-- Registry update/lookup: setting a key then reading it back. -/
theorem assocGet_assocSet {α : Type} (m : List (String × α)) (k : String) (v : α) :
    assocGet (assocSet m k v) k = some v := by
  induction m with
  | nil => simp [assocSet, assocGet]
  | cons kv rest ih =>
    obtain ⟨k', v'⟩ := kv
    unfold assocSet
    by_cases h : k' = k
    · rw [if_pos h]
      simp [assocGet]
    · rw [if_neg h]
      unfold assocGet
      rw [if_neg h]
      exact ih

/-- C10: every successful `subscribe(channel_name, auth?)` stores a freshly
constructed `Channel` (empty callback table, no auth) under that name and
returns that same object; consequently any channel previously registered
under the name is replaced, and subsequent inbound dispatch for the name
reaches only the fresh channel's (empty) callbacks — previously bound
callbacks never fire. -/
theorem c10_subscribe_replaces (ext : Externals) (cfg : PusherCfg) (st : PusherSt)
    (name : String) (auth : Option String) (sent : List SentEvent)
    (st2 : PusherSt) (ch : ChannelM)
    (h : subscribe ext cfg st name auth = (sent, .ok (st2, ch))) :
    ch = ⟨name, none, []⟩
  ∧ assocGet st2.channels name = some ch
  ∧ ∀ ev d, connectionHandler st2 ev d name = ([], .ok ()) := by
  unfold subscribe at h
  cases hd : subscribeData ext cfg st.socket_id name auth with
  | error e =>
    rw [hd] at h
    exact absurd (congrArg Prod.snd h) (by simp)
  | ok data =>
    rw [hd] at h
    have h2 : Except.ok ({ st with channels := assocSet st.channels name ⟨name, none, []⟩ },
        (⟨name, none, []⟩ : ChannelM)) = Except.ok (st2, ch) := congrArg Prod.snd h
    injection h2 with h3
    rw [Prod.mk.injEq] at h3
    obtain ⟨hst, hch⟩ := h3
    subst hch
    refine ⟨rfl, ?_, ?_⟩
    · rw [← hst]
      exact assocGet_assocSet st.channels name _
    · intro ev d
      unfold connectionHandler
      rw [← hst]
      show (match assocGet (assocSet st.channels name ⟨name, none, []⟩) name with
            | some ch2 => ch2.handleEvent ev d
            | none => ([], .ok ())) = ([], .ok ())
      rw [assocGet_assocSet st.channels name _]
      rfl

/-- C10 witness: re-subscribing `"foo"` over an existing channel with a
bound callback replaces it with a fresh, callback-less channel; dispatch for
`"foo"` then runs nothing. -/
theorem c10_subscribe_replaces_witness :
    (⟨"foo", none, []⟩ : ChannelM) = ⟨"foo", none, []⟩
  ∧ assocGet ([("foo", (⟨"foo", none, []⟩ : ChannelM))]) "foo" = some ⟨"foo", none, []⟩
  ∧ ∀ ev d, connectionHandler ⟨[("foo", ⟨"foo", none, []⟩)], "sid"⟩ ev d "foo"
      = ([], .ok ()) :=
  c10_subscribe_replaces ⟨fun _ _ => [], fun _ _ => ""⟩ ⟨"k", "s", none, .null⟩
    ⟨[("foo", ⟨"foo", some "t", [("ev", [fun _ => .error "old"])]⟩)], "sid"⟩
    "foo" none
    [("pusher:subscribe", Json.obj (.cons "channel" (.str "foo") .nil), none)]
    ⟨[("foo", ⟨"foo", none, []⟩)], "sid"⟩ ⟨"foo", none, []⟩ rfl

end Pysher
